import Mathlib

/-!
Verification of the path-confinement and file-operation subsystem of
`basic_file_server.py` (the "file explore" MCP server).

The Python code is shallowly embedded:

* POSIX path strings are modelled as Lean `String`s, manipulated through
  their underlying `List Char`; the relevant `os.path` functions
  (`join`, `abspath` = `normpath` on absolute inputs, `relpath`) are
  translated from CPython's `posixpath` reference implementation.
* `sanitize_path` is translated line by line: strip leading `/` then `\`,
  join onto the resolved base path, `os.path.abspath`, then the
  `str.startswith` check, raising `ValueError` (modelled as `Except.error`)
  on failure.
* The filesystem is an explicit flat store mapping absolute path strings to
  file entries (content plus on-disk byte size, since `os.path.getsize`
  reads metadata that may have been produced outside this program);
  directories are abstracted away (the flat store gives every path a
  regular-file slot, which covers the claims below, all of which concern
  regular files; `os.makedirs` is therefore a no-op in the model).
* `os.walk` is modelled by the sequence of `(dirpath, filenames)` levels it
  yields, with per-file metadata (size, mtime) attached to each filename;
  the `folder_analysis` loop is translated as a fold over that sequence.
* Tool results (the JSON dict serialized into the returned `TextContent`)
  are modelled as ordered association lists from key strings to a small
  JSON value type, preserving the key order of the Python dict literals.
-/

/-- The characters of a string (Python treats `str` as a char sequence). -/
def strChars (s : String) : List Char := s.data

/-- `str.lstrip(c)` for a single-character strip set: drop leading `c`s. -/
def lstripChar (c : Char) (s : List Char) : List Char := s.dropWhile (· = c)

/-- Does the path string start with the POSIX separator? -/
def startsWithSep : List Char → Bool
  | '/' :: _ => true
  | _ => false

/-- `str.split("/")`, CPython semantics: `"" ↦ [""]`, separators delimit. -/
def splitSep : List Char → List (List Char)
  | [] => [[]]
  | c :: rest =>
    let r := splitSep rest
    if c = '/' then [] :: r
    else
      match r with
      | h :: t => (c :: h) :: t
      | [] => [[c]]

/-- `"/".join(components)`. -/
def joinSep : List (List Char) → List Char
  | [] => []
  | [c] => c
  | c :: rest => c ++ '/' :: joinSep rest

/-- `posixpath.join(a, b)` for two components, as in the source's
`os.path.join(ALLOWED_BASE_PATH, path...)` on a POSIX host. -/
def posixJoin (a b : List Char) : List Char :=
  if startsWithSep b then b
  else if a = [] ∨ a.getLast? = some '/' then a ++ b
  else a ++ '/' :: b

/-- The number of leading slashes `posixpath.normpath` preserves: two
slashes exactly are kept (POSIX special case), otherwise one. -/
def initialSlashCount : List Char → Nat
  | '/' :: '/' :: '/' :: _ => 1
  | '/' :: '/' :: _ => 2
  | '/' :: _ => 1
  | _ => 0

/-- One step of `posixpath.normpath`'s component loop: skip empty and `.`
components; a `..` pops the previous component unless the path is relative
and empty so far, or the previous component is itself a `..`. -/
def normStep (slashes : Nat) (acc : List (List Char)) (comp : List Char) : List (List Char) :=
  if comp = [] ∨ comp = ['.'] then acc
  else if comp ≠ ['.', '.'] ∨ (slashes = 0 ∧ acc = []) ∨ acc.getLast? = some ['.', '.'] then
    acc ++ [comp]
  else if acc ≠ [] then acc.dropLast
  else acc

/-- `posixpath.normpath`: purely lexical normalization of `.` and `..`;
symlinks are NOT consulted. -/
def normpath (p : List Char) : List Char :=
  if p = [] then ['.']
  else
    let slashes := initialSlashCount p
    let comps := (splitSep p).foldl (normStep slashes) []
    let res := List.replicate slashes '/' ++ joinSep comps
    if res = [] then ['.'] else res

/-- `os.path.abspath` for the absolute inputs produced inside
`sanitize_path` (the base path is `Path(...).resolve()`d, hence absolute,
so the join is always absolute and `abspath` reduces to `normpath`). -/
def abspath (p : List Char) : List Char := normpath p

/-- `sanitize_path` from `basic_file_server.py`, parameterized by the
resolved `ALLOWED_BASE_PATH` (`root`):

    full_path = os.path.abspath(os.path.join(ALLOWED_BASE_PATH,
                                             path.lstrip("/").lstrip("\\")))
    if not full_path.startswith(ALLOWED_BASE_PATH):
        raise ValueError("Access outside allowed directory")
    return full_path

The raised `ValueError` is modelled as `Except.error` with the same
message; the `startswith` string-prefix test is `List.isPrefixOf` on the
character sequences. -/
def sanitize_path (root : String) (path : String) : Except String String :=
  let stripped := lstripChar '\\' (lstripChar '/' (strChars path))
  let full := abspath (posixJoin (strChars root) stripped)
  if (strChars root).isPrefixOf full then Except.ok ⟨full⟩
  else Except.error "Access outside allowed directory"

/-- The nonempty path components of a path string (the component sequence
the specification's containment check is phrased over). -/
def pathComponents (p : String) : List (List Char) :=
  (splitSep (strChars p)).filter (· ≠ [])

/-! ## Symlink model

`os.path.abspath` is purely lexical; whether a component is a symlink is a
property of the ambient filesystem. To state the symlink-mediated-escape
claim we model the filesystem's symlink structure as an explicit table
from (absolute, component-sequence) link paths to their (absolute,
component-sequence) targets, and define the real-target resolution that
`os.path.realpath` would perform over that table. `sanitize_path` itself
never consults this table — that is exactly what the claim is about. -/

/-- Absolute paths as component sequences. -/
abbrev Comps := List (List Char)

/-- Look a path up in a symlink table. -/
def linkLookup : List (Comps × Comps) → Comps → Option Comps
  | [], _ => none
  | (k, v) :: rest, q => if k = q then some v else linkLookup rest q

/-- Fuel-bounded left-to-right symlink resolution: after extending the
resolved prefix by one component, a matching link replaces the prefix by
its target. The fuel only guards against cyclic tables. -/
def resolveLinks (links : List (Comps × Comps)) : Nat → Comps → Comps → Comps
  | 0, acc, rest => acc ++ rest
  | _ + 1, acc, [] => acc
  | fuel + 1, acc, c :: rest =>
    let step := acc ++ [c]
    match linkLookup links step with
    | some target => resolveLinks links fuel target rest
    | none => resolveLinks links fuel step rest

/-- The real target (`os.path.realpath`) of an absolute path string under a
symlink table. -/
def realpathComps (links : List (Comps × Comps)) (p : String) : Comps :=
  resolveLinks links ((pathComponents p).length * (links.length + 1) + 1) [] (pathComponents p)

/-- A filesystem in which `/allowed/link` is a symlink to `/etc`. -/
def escapeLinks : List (Comps × Comps) := [(pathComponents "/allowed/link", pathComponents "/etc")]

/-! ## Flat filesystem model and the read/write tools -/

/-- The 10 MiB limit: `MAX_FILE_SIZE = 10 * 1024 * 1024`. -/
def MAX_FILE_SIZE : Nat := 10 * 1024 * 1024

/-- A regular file on disk: its text content and its on-disk byte size as
reported by `os.path.getsize` (metadata; files may have been created by
other programs, so the size is carried explicitly). -/
structure FSFile where
  content : String
  size : Nat
deriving DecidableEq

/-- Flat filesystem: absolute path string to file entry. -/
abbrev FileSystem := List (String × FSFile)

/-- Find the file stored at a path (`os.path.exists` / reading). -/
def fsFind : FileSystem → String → Option FSFile
  | [], _ => none
  | (q, e) :: rest, p => if q = p then some e else fsFind rest p

/-- Create or overwrite the file at a path (`open(path, "w")` then write:
truncate-and-write semantics). -/
def fsInsert : FileSystem → String → FSFile → FileSystem
  | [], p, e => [(p, e)]
  | (q, f) :: rest, p, e => if q = p then (p, e) :: rest else (q, f) :: fsInsert rest p e

/-- The number of bytes of the UTF-8 encoding of a string: the size on
disk of a file written with `open(..., "w", encoding="utf-8")`. -/
def utf8Len (s : String) : Nat := s.data.foldl (fun n c => n + c.utf8Size) 0

/-- JSON values occurring in the tool results (strings, integers, and the
file listing of `folder_analysis`). -/
structure JFile where
  name : String
  path : String
  size : Nat
  modified : Nat
deriving DecidableEq

inductive JVal where
  | jstr (s : String)
  | jnum (n : Nat)
  | jfiles (fs : List JFile)
deriving DecidableEq

/-- A tool result: the JSON object (ordered key/value list) serialized
into the single returned `TextContent`. -/
abbrev ToolResult := List (String × JVal)

/-- `file_read` from `basic_file_server.py`: sanitize the path (a raised
`ValueError` is caught by the `except` clause and serialized as an error
result with the exception's message), check existence, check
`file_size > MAX_FILE_SIZE`, and return the content. The flat filesystem
has no directories, so the `os.path.isfile` branch for directories does
not arise in the model. -/
def file_read (root : String) (fs : FileSystem) (path : String) : ToolResult :=
  match sanitize_path root path with
  | Except.error msg => [("status", JVal.jstr "error"), ("message", JVal.jstr msg)]
  | Except.ok safe =>
    match fsFind fs safe with
    | none => [("status", JVal.jstr "error"), ("message", JVal.jstr "File not found")]
    | some f =>
      if f.size > MAX_FILE_SIZE then
        [("status", JVal.jstr "error"), ("message", JVal.jstr "File too large")]
      else
        [("status", JVal.jstr "success"), ("path", JVal.jstr path), ("content", JVal.jstr f.content)]

/-- `file_write` from `basic_file_server.py`: `if not op.content` rejects a
missing (`None`) or empty (falsy `""`) content before anything else; only
then is the path sanitized (a raised `ValueError` is caught and serialized
with its message); `os.makedirs` is a no-op in the flat model; the write
stores the content with its UTF-8 byte size. Returns the new filesystem
and the serialized result. -/
def file_write (root : String) (fs : FileSystem) (path : String) (content : Option String) :
    FileSystem × ToolResult :=
  match content with
  | none => (fs, [("status", JVal.jstr "error"), ("message", JVal.jstr "Content is required")])
  | some c =>
    if c = "" then
      (fs, [("status", JVal.jstr "error"), ("message", JVal.jstr "Content is required")])
    else
      match sanitize_path root path with
      | Except.error msg => (fs, [("status", JVal.jstr "error"), ("message", JVal.jstr msg)])
      | Except.ok safe =>
        (fsInsert fs safe ⟨c, utf8Len c⟩,
         [("status", JVal.jstr "success"), ("path", JVal.jstr path),
          ("message", JVal.jstr "File written successfully")])

/-! ## The folder-analysis walk model -/

/-- Per-file metadata attached to a walked filename: the values
`os.path.getsize` and `os.path.getmtime` return for it (mtime abstracted
to a natural number). -/
structure FileMeta where
  name : String
  size : Nat
  modified : Nat
deriving DecidableEq

/-- One `(dirpath, filenames)` level yielded by `os.walk` (the ignored
`dirnames` component is dropped, as in `for root, _, filenames in ...`). -/
abbrev WalkLevel := String × List FileMeta

/-- The full top-down sequence of levels yielded by `os.walk(safe_path)`. -/
abbrev WalkOutput := List WalkLevel

/-- Length of the common component prefix of two component sequences. -/
def commonLen : Comps → Comps → Nat
  | a :: as, b :: bs => if a = b then commonLen as bs + 1 else 0
  | _, _ => 0

/-- `posixpath.relpath(p, start)` for absolute `p` and `start`: compare the
normalized component sequences, ascend with `..` for the uncommon part of
`start`, then descend into the rest of `p`. -/
def relpath (p start : List Char) : List Char :=
  let pl := (splitSep (normpath p)).filter (· ≠ [])
  let sl := (splitSep (normpath start)).filter (· ≠ [])
  let i := commonLen sl pl
  let rel := List.replicate (sl.length - i) ['.', '.'] ++ pl.drop i
  if rel = [] then ['.'] else joinSep rel

/-- The `FileMetadata` record the loop appends for one file:
`{"name": filename, "path": os.path.relpath(file_path, ALLOWED_BASE_PATH),
"size": ..., "modified": ...}` with `file_path = os.path.join(root, filename)`. -/
def entryOf (base dirpath : String) (f : FileMeta) : JFile :=
  { name := f.name
    path := ⟨relpath (posixJoin (strChars dirpath) (strChars f.name)) (strChars base)⟩
    size := f.size
    modified := f.modified }

/-- The loop state of `folder_analysis`: `files`, `total_size`, `file_count`. -/
structure AnalysisAcc where
  files : List JFile
  total_size : Nat
  file_count : Nat
deriving DecidableEq

/-- The inner `for i, filename in enumerate(filenames)` loop of
`folder_analysis` over one walk level (progress reporting is modelled
separately by `progressTicks`; it does not touch this state). -/
def processLevel (base : String) (acc : AnalysisAcc) (lvl : WalkLevel) : AnalysisAcc :=
  lvl.2.foldl
    (fun a f =>
      { files := a.files ++ [entryOf base lvl.1 f]
        total_size := a.total_size + f.size
        file_count := a.file_count + 1 })
    acc

/-- The full `for root, _, filenames in os.walk(safe_path)` loop. -/
def analysisLoop (base : String) (walk : WalkOutput) : AnalysisAcc :=
  walk.foldl (processLevel base) { files := [], total_size := 0, file_count := 0 }

/-- The JSON object `folder_analysis` returns on success, with the key
order of the Python dict literal; `files` is truncated to the first 50
entries (`files[:50]`). -/
def folder_analysis_json (base pathArg : String) (walk : WalkOutput) : ToolResult :=
  let acc := analysisLoop base walk
  [("status", JVal.jstr "success"),
   ("path", JVal.jstr pathArg),
   ("file_count", JVal.jnum acc.file_count),
   ("total_size", JVal.jnum acc.total_size),
   ("files", JVal.jfiles (acc.files.take 50)),
   ("message", JVal.jstr "Folder analysis completed")]

/-- Specification-side view: every file metadata record of the walk, in
traversal order. -/
def walkMetas (walk : WalkOutput) : List FileMeta := walk.flatMap Prod.snd

/-- Specification-side view: every listing entry of the walk, in traversal
order, untruncated. -/
def walkFiles (base : String) (walk : WalkOutput) : List JFile :=
  walk.flatMap (fun lvl => lvl.2.map (entryOf base lvl.1))

/-- The progress ticks emitted inside one directory level of `n` files:
`if (i + 1) % 10 == 0: report_progress(min(90, (i + 1) * 90 // len(filenames)), 100)`. -/
def levelTicks (n : Nat) : List Nat :=
  (List.range n).filterMap
    (fun i => if (i + 1) % 10 = 0 then some (min 90 ((i + 1) * 90 / n)) else none)

/-- The full sequence of progress `current` values a `folder_analysis`
call reports: `0` before the walk, the per-level ticks during it, `100`
after it. -/
def progressTicks (walk : WalkOutput) : List Nat :=
  0 :: ((walk.flatMap (fun lvl => levelTicks lvl.2.length)) ++ [100])

/-- Concrete walk with 51 files in one directory (truncation threshold
exceeded). -/
def walkC6 : WalkOutput := [("/allowed/sub", List.replicate 51 ⟨"f", 1, 0⟩)]

/-- Concrete walk: a directory of 10 files followed by a subdirectory of
20 files (the per-level progress index resets between them). -/
def walkC9 : WalkOutput :=
  [("/allowed/d", List.replicate 10 ⟨"f", 0, 0⟩), ("/allowed/d/sub", List.replicate 20 ⟨"g", 0, 0⟩)]

/-! ## Helper lemmas -/

theorem fsFind_fsInsert (fs : FileSystem) (p : String) (e : FSFile) :
    fsFind (fsInsert fs p e) p = some e := by
  induction fs with
  | nil => simp [fsInsert, fsFind]
  | cons hd tl ih =>
    obtain ⟨q, f⟩ := hd
    by_cases h : q = p
    · simp [fsInsert, fsFind, h]
    · simp [fsInsert, fsFind, h, ih]

theorem processLevel_eq (base d : String) (l : List FileMeta) (acc : AnalysisAcc) :
    processLevel base acc (d, l) =
      { files := acc.files ++ l.map (entryOf base d)
        total_size := acc.total_size + (l.map FileMeta.size).sum
        file_count := acc.file_count + l.length } := by
  induction l generalizing acc with
  | nil => simp [processLevel]
  | cons f t ih =>
    simp only [processLevel, List.foldl_cons] at ih ⊢
    rw [ih]
    simp [List.append_assoc]
    omega

theorem analysisLoop_from (base : String) (walk : WalkOutput) (acc : AnalysisAcc) :
    walk.foldl (processLevel base) acc =
      { files := acc.files ++ walkFiles base walk
        total_size := acc.total_size + ((walkMetas walk).map FileMeta.size).sum
        file_count := acc.file_count + (walkMetas walk).length } := by
  induction walk generalizing acc with
  | nil => simp [walkFiles, walkMetas]
  | cons lvl rest ih =>
    obtain ⟨d, l⟩ := lvl
    rw [List.foldl_cons, processLevel_eq, ih]
    simp [walkFiles, walkMetas, List.append_assoc]
    omega

/-- The `folder_analysis` loop state after the walk: all entries in
traversal order, the total size, and the total count. -/
theorem analysisLoop_spec (base : String) (walk : WalkOutput) :
    analysisLoop base walk =
      { files := walkFiles base walk
        total_size := ((walkMetas walk).map FileMeta.size).sum
        file_count := (walkMetas walk).length } := by
  rw [analysisLoop, analysisLoop_from]
  simp

theorem filterMap_ite_sublist (f : Nat → Nat) (p : Nat → Prop) [DecidablePred p] (l : List Nat) :
    List.Sublist (l.filterMap (fun i => if p i then some (f i) else none)) (l.map f) := by
  induction l with
  | nil => simp
  | cons a t ih =>
    simp only [List.filterMap_cons, List.map_cons]
    by_cases h : p a
    · simp only [h, if_pos]
      exact ih.cons₂ _
    · simp only [h, if_neg, not_false_iff]
      exact ih.cons _

/-- Within one directory level the emitted tick values never decrease:
the reported value is monotone in the file index. -/
theorem levelTicks_chain (n : Nat) : List.Chain' (· ≤ ·) (levelTicks n) := by
  have hmono : ∀ i j : Nat, i < j → min 90 ((i + 1) * 90 / n) ≤ min 90 ((j + 1) * 90 / n) := by
    intro i j hij
    exact min_le_min (le_refl 90) (Nat.div_le_div_right (Nat.mul_le_mul_right 90 (by omega)))
  have hsub := filterMap_ite_sublist (fun i => min 90 ((i + 1) * 90 / n))
    (fun i => (i + 1) % 10 = 0) (List.range n)
  have hpair : ((List.range n).map (fun i => min 90 ((i + 1) * 90 / n))).Pairwise (· ≤ ·) :=
    (List.pairwise_map).2 ((List.pairwise_lt_range n).imp (fun h => hmono _ _ h))
  exact List.chain'_iff_pairwise.2 ((hpair.sublist hsub).imp (fun h => h))

/-! ## Claim theorems -/

/-- C1: the claim states that `sanitize_path` rejects every input whose
canonical resolution lies outside the sandbox root even when the absolute
path string shares the root as a string prefix (root `/allowed` must not
admit `/allowed-2`), because the check is component-wise. Evaluating the
code refutes this: for root `/allowed` the input `../allowed-2/secret`
canonicalizes to `/allowed-2/secret`, whose component sequence does not
extend the root's, yet the `startswith` string-prefix check admits it and
`sanitize_path` returns it instead of raising. -/
theorem C1_sibling_directory_admitted :
    sanitize_path "/allowed" "../allowed-2/secret" = Except.ok "/allowed-2/secret" ∧
    (pathComponents "/allowed").isPrefixOf (pathComponents "/allowed-2/secret") = false ∧
    (strChars "/allowed").isPrefixOf (strChars "/allowed-2/secret") = true :=
  ⟨rfl, by decide, by decide⟩

/-- C2: the claim states that every relative input containing `..`
segments that would resolve outside the sandbox root is rejected with a
path violation. Evaluating the code refutes this: for root `/allowed` the
`..`-bearing input `../allowed-2/x` resolves to `/allowed-2/x`, outside
the root component-wise, yet `sanitize_path` returns it successfully. -/
theorem C2_dotdot_escape_admitted :
    sanitize_path "/allowed" "../allowed-2/x" = Except.ok "/allowed-2/x" ∧
    (pathComponents "/allowed").isPrefixOf (pathComponents "/allowed-2/x") = false :=
  ⟨rfl, by decide⟩

/-- C3: the claim states that `sanitize_path` canonicalizes with symlinks
resolved to their real targets, so any symlink-mediated escape is
rejected. Evaluating the code refutes this: `os.path.abspath` is purely
lexical, so with `/allowed/link` a symlink to `/etc` the input
`link/passwd` is admitted as `/allowed/link/passwd`, although its real
target `/etc/passwd` lies outside the root. -/
theorem C3_symlink_escape_admitted :
    sanitize_path "/allowed" "link/passwd" = Except.ok "/allowed/link/passwd" ∧
    realpathComps escapeLinks "/allowed/link/passwd" = pathComponents "/etc/passwd" ∧
    (pathComponents "/allowed").isPrefixOf
      (realpathComps escapeLinks "/allowed/link/passwd") = false :=
  ⟨rfl, by decide, by decide⟩

/-- C4: for any walked directory tree, the `file_count` field of the
`folder_analysis` result equals the true number of files of the full
recursive walk, and `total_size` equals the true sum of their sizes —
independent of the 50-entry truncation of the `files` listing. -/
theorem C4_analysis_totals_untruncated (base pathArg : String) (walk : WalkOutput) :
    List.lookup "file_count" (folder_analysis_json base pathArg walk) =
      some (JVal.jnum (walkMetas walk).length) ∧
    List.lookup "total_size" (folder_analysis_json base pathArg walk) =
      some (JVal.jnum ((walkMetas walk).map FileMeta.size).sum) := by
  have h := analysisLoop_spec base walk
  constructor
  · calc List.lookup "file_count" (folder_analysis_json base pathArg walk)
        = some (JVal.jnum (analysisLoop base walk).file_count) := rfl
      _ = some (JVal.jnum (walkMetas walk).length) := by rw [h]
  · calc List.lookup "total_size" (folder_analysis_json base pathArg walk)
        = some (JVal.jnum (analysisLoop base walk).total_size) := rfl
      _ = some (JVal.jnum ((walkMetas walk).map FileMeta.size).sum) := by rw [h]

/-- C5: round-trip — for every nonempty content whose UTF-8 size is within
the limit and every path that sanitizes successfully, writing and then
reading that path returns exactly the written content. -/
theorem C5_write_read_roundtrip (root : String) (fs : FileSystem) (path safe c : String)
    (hne : c ≠ "") (hsz : utf8Len c ≤ MAX_FILE_SIZE)
    (hs : sanitize_path root path = Except.ok safe) :
    file_read root (file_write root fs path (some c)).1 path =
      [("status", JVal.jstr "success"), ("path", JVal.jstr path),
       ("content", JVal.jstr c)] := by
  have h1 : (file_write root fs path (some c)).1 = fsInsert fs safe ⟨c, utf8Len c⟩ := by
    simp [file_write, hne, hs]
  rw [h1]
  simp [file_read, hs, fsFind_fsInsert, Nat.not_lt.2 hsz]

/-- Witness for C5 at a concrete input. -/
theorem C5_write_read_roundtrip_witness :
    file_read "/allowed" (file_write "/allowed" [] "notes.txt" (some "hello")).1 "notes.txt" =
      [("status", JVal.jstr "success"), ("path", JVal.jstr "notes.txt"),
       ("content", JVal.jstr "hello")] :=
  C5_write_read_roundtrip "/allowed" [] "notes.txt" "/allowed/notes.txt" "hello"
    (by decide) (by decide) rfl

/-- C6 counterexample: the claim states that the result carries a
`truncated` flag equal to `file_count > 50`. On a walk of 51 files the
result has `file_count = 51` but contains no `truncated` key at all — the
Python dict literal has only the keys `status`, `path`, `file_count`,
`total_size`, `files`, `message`. -/
theorem C6_no_truncated_flag :
    List.lookup "truncated" (folder_analysis_json "/allowed" "sub" walkC6) = none ∧
    List.lookup "file_count" (folder_analysis_json "/allowed" "sub" walkC6) =
      some (JVal.jnum 51) :=
  ⟨rfl, rfl⟩

/-- C6 (amended): after the traversal, the returned `files` listing is the
first 50 entries of the full walk in traversal order, and the result
contains no `truncated` flag; callers must compare `file_count` with the
listing length to detect truncation. -/
theorem C6_files_take50_no_flag (base pathArg : String) (walk : WalkOutput) :
    List.lookup "files" (folder_analysis_json base pathArg walk) =
      some (JVal.jfiles ((walkFiles base walk).take 50)) ∧
    List.lookup "truncated" (folder_analysis_json base pathArg walk) = none := by
  have h := analysisLoop_spec base walk
  constructor
  · calc List.lookup "files" (folder_analysis_json base pathArg walk)
        = some (JVal.jfiles ((analysisLoop base walk).files.take 50)) := rfl
      _ = some (JVal.jfiles ((walkFiles base walk).take 50)) := by rw [h]
  · rfl

/-- C7: reading an existing confined file of size exactly `MAX_FILE_SIZE`
succeeds and returns its content; reading one of size `MAX_FILE_SIZE + 1`
or more fails with the File-too-large error — the source's comparison is
the strict `file_size > MAX_FILE_SIZE`. -/
theorem C7_read_size_boundary (root : String) (fs : FileSystem) (path safe : String)
    (f : FSFile) (hs : sanitize_path root path = Except.ok safe)
    (hf : fsFind fs safe = some f) :
    (f.size = MAX_FILE_SIZE →
      file_read root fs path =
        [("status", JVal.jstr "success"), ("path", JVal.jstr path),
         ("content", JVal.jstr f.content)]) ∧
    (MAX_FILE_SIZE + 1 ≤ f.size →
      file_read root fs path =
        [("status", JVal.jstr "error"), ("message", JVal.jstr "File too large")]) := by
  constructor
  · intro hsize
    simp [file_read, hs, hf, hsize]
  · intro hsize
    simp only [file_read, hs, hf]
    rw [if_pos (by omega)]

/-- Witness for C7 at concrete inputs on both sides of the boundary. -/
theorem C7_read_size_boundary_witness :
    file_read "/allowed" [("/allowed/max.txt", ⟨"m", 10485760⟩)] "max.txt" =
      [("status", JVal.jstr "success"), ("path", JVal.jstr "max.txt"),
       ("content", JVal.jstr "m")] ∧
    file_read "/allowed" [("/allowed/big.txt", ⟨"b", 10485761⟩)] "big.txt" =
      [("status", JVal.jstr "error"), ("message", JVal.jstr "File too large")] :=
  ⟨(C7_read_size_boundary "/allowed" [("/allowed/max.txt", ⟨"m", 10485760⟩)]
      "max.txt" "/allowed/max.txt" ⟨"m", 10485760⟩ rfl rfl).1 rfl,
   (C7_read_size_boundary "/allowed" [("/allowed/big.txt", ⟨"b", 10485761⟩)]
      "big.txt" "/allowed/big.txt" ⟨"b", 10485761⟩ rfl rfl).2 (by decide)⟩

/-- C8: a write request with absent (`None`) or empty content fails with
the Content-is-required validation error and leaves the filesystem
unchanged — no file is created or truncated. -/
theorem C8_empty_content_rejected (root : String) (fs : FileSystem) (path : String)
    (c : Option String) (h : c = none ∨ c = some "") :
    file_write root fs path c =
      (fs, [("status", JVal.jstr "error"), ("message", JVal.jstr "Content is required")]) := by
  rcases h with h | h <;> subst h <;> simp [file_write]

/-- Witness for C8 at a concrete input. -/
theorem C8_empty_content_rejected_witness :
    file_write "/allowed" [] "a.txt" none =
      ([], [("status", JVal.jstr "error"), ("message", JVal.jstr "Content is required")]) :=
  C8_empty_content_rejected "/allowed" [] "a.txt" none (Or.inl rfl)

/-- C9 counterexample: the claim states the progress tick sequence of a
single `folder_analysis` call is monotonically non-decreasing. On a walk
of a 10-file directory followed by a 20-file subdirectory the emitted
sequence is `[0, 90, 45, 90, 100]`, which decreases from 90 to 45 when
the per-level index resets. -/
theorem C9_ticks_not_monotone :
    progressTicks walkC9 = [0, 90, 45, 90, 100] ∧
    ¬ List.Chain' (· ≤ ·) (progressTicks walkC9) := by
  refine ⟨by decide, ?_⟩
  rw [show progressTicks walkC9 = [0, 90, 45, 90, 100] from by decide]
  norm_num [List.chain'_cons, List.chain'_singleton]

/-- C9 (amended): the tick sequence starts at 0, ends at 100, and is
non-decreasing within each directory level (`levelTicks n` is a chain for
every level size `n`); across directory levels the sequence may decrease,
because the file index that drives the reported value resets per level. -/
theorem C9_ticks_per_level_monotone (walk : WalkOutput) (n : Nat) :
    (progressTicks walk).head? = some 0 ∧
    (progressTicks walk).getLast? = some 100 ∧
    List.Chain' (· ≤ ·) (levelTicks n) ∧
    progressTicks walk =
      0 :: ((walk.flatMap (fun lvl => levelTicks lvl.2.length)) ++ [100]) := by
  refine ⟨rfl, ?_, levelTicks_chain n, rfl⟩
  show (0 :: ((walk.flatMap (fun lvl => levelTicks lvl.2.length)) ++ [100])).getLast? = some 100
  rw [← List.cons_append]
  exact List.getLast?_concat _

/-- C10: in `file_write` the required-content check runs before path
resolution, so an empty/absent-content request receives the
Content-is-required error — and the filesystem stays unchanged — even
when the supplied path fails sanitization with a path violation. -/
theorem C10_content_check_before_path_resolution (root : String) (fs : FileSystem)
    (path : String) (c : Option String) (msg : String)
    (hc : c = none ∨ c = some "")
    (_hp : sanitize_path root path = Except.error msg) :
    file_write root fs path c =
      (fs, [("status", JVal.jstr "error"), ("message", JVal.jstr "Content is required")]) := by
  rcases hc with h | h <;> subst h <;> simp [file_write]

/-- Witness for C10 at a concrete input whose path escapes the root. -/
theorem C10_content_check_before_path_resolution_witness :
    sanitize_path "/allowed" "../evil" = Except.error "Access outside allowed directory" ∧
    file_write "/allowed" [] "../evil" none =
      ([], [("status", JVal.jstr "error"), ("message", JVal.jstr "Content is required")]) :=
  ⟨rfl, C10_content_check_before_path_resolution "/allowed" [] "../evil" none
    "Access outside allowed directory" (Or.inl rfl) rfl⟩
